import Mathlib

/-!
# Shallow embedding of the `scimcp` SCIM client and tool dispatcher

`Scimcp.SCIMClient` embeds `src/scimcp/scim_client.py`: construction with
environment fallback, request construction, list/get/create/update/delete for
Users and Groups, and group-membership PATCH operations.  Randomness consumed
by the generators (`random.choices`, `random.choice`, `random.randint`) is
passed in explicitly as indices/numbers.  HTTP requests are reified as
`Request` values rather than performed.

`Scimcp.SCIMMCPServer` embeds the dispatcher of `src/scimcp/mcp_server.py`:
tool lookup, required-argument extraction (a missing key raises `KeyError`,
modelled as `Except.error`), and response normalisation.
-/

namespace Scimcp

/-- JSON-like values, the payloads and arguments the system passes around. -/
inductive Value where
  | str (s : String)
  | int (n : Int)
  | bool (b : Bool)
  | null
  | arr (elems : List Value)
  | obj (fields : List (String × Value))

/-- Python truthiness of an `Optional[str]`: `None` and `""` are falsy. -/
def strTruthy : Option String → Bool
  | none => false
  | some s => !(s == "")

/-- Python `a or b` on `Optional[str]` values. -/
def pyOr (a b : Option String) : Option String :=
  if strTruthy a then a else b

/-- Python `s.rstrip("/")`: remove every trailing `'/'`. -/
def rstripSlash (s : String) : String :=
  ⟨(s.data.reverse.dropWhile (· == '/')).reverse⟩

/-- Python `s.lstrip("/")`: remove every leading `'/'`. -/
def lstripSlash (s : String) : String :=
  ⟨s.data.dropWhile (· == '/')⟩

/-- The environment variables the client reads (`os.getenv`). -/
structure Env where
  scim_base_url : Option String
  scim_token : Option String
  debug : Option String

/-- Python `str(obj)` restricted to the shapes arguments take; on the string
arguments the dispatcher actually passes it is the identity. -/
def Value.pyStr : Value → String
  | .str s => s
  | .int n => toString n
  | .bool true => "True"
  | .bool false => "False"
  | .null => "None"
  | .arr _ => "[...]"
  | .obj _ => "{...}"

/-- Python `int`-typed argument access; dispatcher arguments declared
`integer` in the tool schemas. -/
def Value.pyInt : Value → Int
  | .int n => n
  | .bool true => 1
  | _ => 0

/-- A Python `list[str]` argument (`user_ids`). -/
def Value.pyStrList : Value → List String
  | .arr vs => vs.map Value.pyStr
  | _ => []

/-- An HTTP request as the client would issue it: method, full URL, optional
JSON body. -/
structure Request where
  method : String
  url : String
  payload : Option Value

/-- Look up a field of a request's JSON-object payload. -/
def Request.payloadField (r : Request) (k : String) : Option Value :=
  match r.payload with
  | some (.obj fields) => (fields.find? (fun kv => kv.1 == k)).map (·.2)
  | _ => none

/-- The SCIM client state fixed at construction
(`SCIMClient.__init__`, scim_client.py lines 21-49). -/
structure SCIMClient where
  base_url : String
  token : String
  headers : List (String × String)
  debug : Bool

/-- `DEBUG` truthiness: case-insensitive match against `true`/`1`/`yes`,
default `"false"` (scim_client.py line 49). -/
def debugTruthy (v : Option String) : Bool :=
  let s := (v.getD "false").toLower
  s == "true" || s == "1" || s == "yes"

/-- `SCIMClient.__init__`: resolve base URL and token against the
environment, fail on absence, strip trailing slashes from the base URL and
fix the header set (scim_client.py lines 21-49). -/
def SCIMClient.init (base_url token : Option String) (env : Env) :
    Except String SCIMClient :=
  let bu := pyOr base_url env.scim_base_url
  let tk := pyOr token env.scim_token
  if !strTruthy bu then
    .error "SCIM base URL must be provided via parameter or SCIM_BASE_URL environment variable"
  else if !strTruthy tk then
    .error "SCIM token must be provided via parameter or SCIM_TOKEN environment variable"
  else
    let buStr := bu.getD ""
    let tkStr := tk.getD ""
    .ok { base_url := rstripSlash buStr
          token := tkStr
          headers := [("Authorization", "Bearer " ++ tkStr),
                      ("Content-Type", "application/scim+json"),
                      ("Accept", "application/scim+json")]
          debug := debugTruthy env.debug }

/-- `SCIMClient._make_request`'s URL:
`f"{self.base_url}/{endpoint.lstrip('/')}"` (scim_client.py line 76). -/
def SCIMClient.makeRequestUrl (c : SCIMClient) (endpoint : String) : String :=
  c.base_url ++ "/" ++ lstripSlash endpoint

/-- `SCIMClient._make_request` (scim_client.py lines 74-88), reified: the
request that `requests.request` would be handed. -/
def SCIMClient.make_request (c : SCIMClient) (method endpoint : String)
    (payload : Option Value := none) : Request :=
  { method := method, url := c.makeRequestUrl endpoint, payload := payload }

/-- The query-parameter list `get_users` builds (scim_client.py lines 101-107):
`startIndex`, `count` clamped to 100, and `filter` only when supplied and
truthy. -/
def getUsersParams (start_index count : Int) (filter_expr : Option String) :
    List (String × String) :=
  [("startIndex", toString start_index), ("count", toString (min count 100))]
    ++ (if strTruthy filter_expr then [("filter", filter_expr.getD "")] else [])

/-- The `Users?...` endpoint string `get_users` builds
(scim_client.py lines 109-112). -/
def getUsersEndpoint (start_index count : Int) (filter_expr : Option String) :
    String :=
  "Users?" ++ String.intercalate "&"
    ((getUsersParams start_index count filter_expr).map (fun kv => kv.1 ++ "=" ++ kv.2))

/-- `SCIMClient.get_users` (scim_client.py lines 90-114). -/
def SCIMClient.get_users (c : SCIMClient) (start_index : Int := 1)
    (count : Int := 100) (filter_expr : Option String := none) : Request :=
  c.make_request "GET" (getUsersEndpoint start_index count filter_expr)

/-- `SCIMClient.get_user` (scim_client.py lines 116-125). -/
def SCIMClient.get_user (c : SCIMClient) (user_id : String) : Request :=
  c.make_request "GET" ("Users/" ++ user_id)

/-- The query-parameter list `get_groups` builds
(scim_client.py lines 231-237). -/
def getGroupsParams (start_index count : Int) (filter_expr : Option String) :
    List (String × String) :=
  [("startIndex", toString start_index), ("count", toString (min count 100))]
    ++ (if strTruthy filter_expr then [("filter", filter_expr.getD "")] else [])

/-- The `Groups?...` endpoint string `get_groups` builds
(scim_client.py lines 239-242). -/
def getGroupsEndpoint (start_index count : Int) (filter_expr : Option String) :
    String :=
  "Groups?" ++ String.intercalate "&"
    ((getGroupsParams start_index count filter_expr).map (fun kv => kv.1 ++ "=" ++ kv.2))

/-- `SCIMClient.get_groups` (scim_client.py lines 220-244). -/
def SCIMClient.get_groups (c : SCIMClient) (start_index : Int := 1)
    (count : Int := 100) (filter_expr : Option String := none) : Request :=
  c.make_request "GET" (getGroupsEndpoint start_index count filter_expr)

/-- `SCIMClient.get_group` (scim_client.py lines 246-255). -/
def SCIMClient.get_group (c : SCIMClient) (group_id : String) : Request :=
  c.make_request "GET" ("Groups/" ++ group_id)

/-- `string.ascii_letters + string.digits`, the population
`_generate_external_id` draws from (scim_client.py line 129). -/
def alphanum : List Char :=
  "abcdefghijklmnopqrstuvwxyzABCDEFGHIJKLMNOPQRSTUVWXYZ0123456789".data

/-- `SCIMClient._generate_external_id` (scim_client.py lines 127-129):
`random.choices(string.ascii_letters + string.digits, k=12)`; the twelve
draws are passed in as indices into the population. -/
def generate_external_id (draws : Fin 12 → Fin alphanum.length) : String :=
  ⟨(List.finRange 12).map (fun i => alphanum.get (draws i))⟩

/-- The adjective word list of `_generate_easy_password`
(scim_client.py lines 134-140). -/
def adjectives : List String :=
  ["Quick", "Happy", "Bright", "Smart", "Cool", "Fast", "Safe", "Good",
   "Blue", "Green", "Red", "Gold", "Silver", "Purple", "Orange", "Pink",
   "Bold", "Calm", "Warm", "Fresh", "Clean", "Sweet", "Sharp", "Smooth",
   "Strong", "Light", "Dark", "Soft", "Hard", "Tall", "Short", "Wide",
   "Deep", "High", "Low", "Rich", "Pure", "Fine", "Rare", "New"]

/-- The noun word list of `_generate_easy_password`
(scim_client.py lines 141-147). -/
def nouns : List String :=
  ["Cat", "Dog", "Bird", "Fish", "Star", "Moon", "Sun", "Tree",
   "Lion", "Tiger", "Bear", "Wolf", "Fox", "Hawk", "Eagle", "Dove",
   "Rose", "Lily", "Oak", "Pine", "River", "Lake", "Hill", "Rock",
   "Fire", "Wind", "Rain", "Snow", "Cloud", "Storm", "Wave", "Ocean",
   "House", "Tower", "Bridge", "Castle", "Garden", "Forest", "Valley", "Mountain"]

/-- `SCIMClient._generate_easy_password` (scim_client.py lines 131-153):
`f"{adjective}{noun}{number}!"` with the two word choices and the
`random.randint(100000, 999999)` draw passed in explicitly. -/
def generate_easy_password (adjIdx : Fin adjectives.length)
    (nounIdx : Fin nouns.length) (number : Nat) : String :=
  adjectives.get adjIdx ++ nouns.get nounIdx ++ Nat.repr number ++ "!"

/-- `SCIMClient.create_user` (scim_client.py lines 155-195): substitute
generated defaults for falsy `externalId`/`password`, build the SCIM User
payload and `POST Users`. -/
def SCIMClient.create_user (c : SCIMClient) (email firstName lastName : String)
    (externalId : Option String := none) (password : Option String := none)
    (extDraws : Fin 12 → Fin alphanum.length)
    (adjIdx : Fin adjectives.length) (nounIdx : Fin nouns.length)
    (pwNumber : Nat) : Request :=
  let externalId :=
    if strTruthy externalId then externalId.getD ""
    else generate_external_id extDraws
  let password :=
    if strTruthy password then password.getD ""
    else generate_easy_password adjIdx nounIdx pwNumber
  let user_data : Value := .obj
    [("schemas", .arr [.str "urn:ietf:params:scim:schemas:core:2.0:User"]),
     ("userName", .str email),
     ("externalId", .str externalId),
     ("name", .obj [("givenName", .str firstName), ("familyName", .str lastName)]),
     ("emails", .arr [.obj [("value", .str email), ("primary", .bool true)]]),
     ("password", .str password),
     ("active", .bool true)]
  c.make_request "POST" "Users" (some user_data)

/-- `SCIMClient.update_user` (scim_client.py lines 197-207). -/
def SCIMClient.update_user (c : SCIMClient) (user_id : String)
    (user_data : Value) : Request :=
  c.make_request "PUT" ("Users/" ++ user_id) (some user_data)

/-- `SCIMClient.delete_user` (scim_client.py lines 209-218). -/
def SCIMClient.delete_user (c : SCIMClient) (user_id : String) : Request :=
  c.make_request "DELETE" ("Users/" ++ user_id)

/-- `SCIMClient.create_group` (scim_client.py lines 257-279): substitute
`str(random.randint(10000000, 99999999))` for a falsy `externalId`. -/
def SCIMClient.create_group (c : SCIMClient) (displayName : String)
    (externalId : Option String := none) (groupNum : Nat) : Request :=
  let externalId :=
    if strTruthy externalId then externalId.getD ""
    else Nat.repr groupNum
  let group_data : Value := .obj
    [("schemas", .arr [.str "urn:ietf:params:scim:schemas:core:2.0:Group"]),
     ("displayName", .str displayName),
     ("externalId", .str externalId)]
  c.make_request "POST" "Groups" (some group_data)

/-- `SCIMClient.update_group` (scim_client.py lines 281-291). -/
def SCIMClient.update_group (c : SCIMClient) (group_id : String)
    (group_data : Value) : Request :=
  c.make_request "PUT" ("Groups/" ++ group_id) (some group_data)

/-- `SCIMClient.delete_group` (scim_client.py lines 293-302). -/
def SCIMClient.delete_group (c : SCIMClient) (group_id : String) : Request :=
  c.make_request "DELETE" ("Groups/" ++ group_id)

/-- `SCIMClient.patch_group` (scim_client.py lines 304-321): wrap the
operations in the PatchOp envelope and `PATCH Groups/{id}`. -/
def SCIMClient.patch_group (c : SCIMClient) (group_id : String)
    (patch_operations : List Value) : Request :=
  let patch_data : Value := .obj
    [("schemas", .arr [.str "urn:ietf:params:scim:api:messages:2.0:PatchOp"]),
     ("Operations", .arr patch_operations)]
  c.make_request "PATCH" ("Groups/" ++ group_id) (some patch_data)

/-- `SCIMClient.add_members_to_group` (scim_client.py lines 323-342). -/
def SCIMClient.add_members_to_group (c : SCIMClient) (group_id : String)
    (user_ids : List String) : Request :=
  let members := user_ids.map (fun user_id => Value.obj [("value", .str user_id)])
  c.patch_group group_id
    [.obj [("op", .str "add"), ("path", .str "members"), ("value", .arr members)]]

/-- The single remove operation built for one user id
(scim_client.py lines 356-359). -/
def removeOp (user_id : String) : Value :=
  .obj [("op", .str "remove"),
        ("path", .str ("members[value eq \"" ++ user_id ++ "\"]"))]

/-- `SCIMClient.remove_members_from_group` (scim_client.py lines 344-361):
one remove operation per user id, in input order. -/
def SCIMClient.remove_members_from_group (c : SCIMClient) (group_id : String)
    (user_ids : List String) : Request :=
  c.patch_group group_id (user_ids.map removeOp)

/-! ## The tool dispatcher (`src/scimcp/mcp_server.py`) -/

/-- The `arguments` dictionary of a tool call. -/
def Args := List (String × Value)

/-- Python `arguments.get(k)`. -/
def Args.get? (a : Args) (k : String) : Option Value :=
  (a.find? (fun kv => kv.1 == k)).map (·.2)

/-- Python `arguments.get(k, d)`. -/
def Args.getD (a : Args) (k : String) (d : Value) : Value :=
  (a.get? k).getD d

/-- `str(KeyError(k))`, the message a missing required argument produces. -/
def keyErrorMsg (k : String) : String := "'" ++ k ++ "'"

/-- Python `arguments[k]`: the value, or a raised `KeyError`. -/
def Args.require (a : Args) (k : String) : Except String Value :=
  match a.get? k with
  | some v => .ok v
  | none => .error (keyErrorMsg k)

/-- The names registered in the dispatcher (`handle_list_tools`,
mcp_server.py lines 36-260, matching the `_execute_tool` branches). -/
def toolNames : List String :=
  ["scim_list_users", "scim_get_user", "scim_create_user", "scim_update_user",
   "scim_delete_user", "scim_list_groups", "scim_get_group", "scim_create_group",
   "scim_update_group", "scim_delete_group", "scim_add_users_to_group",
   "scim_remove_users_from_group"]

/-- The random draws one tool call may consume, passed in explicitly. -/
structure Rand where
  extDraws : Fin 12 → Fin alphanum.length
  adjIdx : Fin adjectives.length
  nounIdx : Fin nouns.length
  pwNumber : Nat
  groupNum : Nat

/-- `SCIMMCPServer._execute_tool` (mcp_server.py lines 287-371), up to the
network boundary: the request the named tool would issue, or the exception it
raises (unknown tool, missing required argument). -/
def execute_tool (c : SCIMClient) (rnd : Rand) (name : String) (a : Args) :
    Except String Request :=
  if name == "scim_list_users" then
    .ok (c.get_users ((a.getD "start_index" (.int 1)).pyInt)
          ((a.getD "count" (.int 100)).pyInt)
          ((a.get? "filter").map Value.pyStr))
  else if name == "scim_get_user" then do
    let uid ← a.require "user_id"
    .ok (c.get_user uid.pyStr)
  else if name == "scim_create_user" then do
    let email ← a.require "email"
    let firstName ← a.require "first_name"
    let lastName ← a.require "last_name"
    .ok (c.create_user email.pyStr firstName.pyStr lastName.pyStr
          ((a.get? "external_id").map Value.pyStr)
          ((a.get? "password").map Value.pyStr)
          rnd.extDraws rnd.adjIdx rnd.nounIdx rnd.pwNumber)
  else if name == "scim_update_user" then do
    let uid ← a.require "user_id"
    let user_data ← a.require "user_data"
    .ok (c.update_user uid.pyStr user_data)
  else if name == "scim_delete_user" then do
    let uid ← a.require "user_id"
    .ok (c.delete_user uid.pyStr)
  else if name == "scim_list_groups" then
    .ok (c.get_groups ((a.getD "start_index" (.int 1)).pyInt)
          ((a.getD "count" (.int 100)).pyInt)
          ((a.get? "filter").map Value.pyStr))
  else if name == "scim_get_group" then do
    let gid ← a.require "group_id"
    .ok (c.get_group gid.pyStr)
  else if name == "scim_create_group" then do
    let displayName ← a.require "display_name"
    .ok (c.create_group displayName.pyStr
          ((a.get? "external_id").map Value.pyStr) rnd.groupNum)
  else if name == "scim_update_group" then do
    let gid ← a.require "group_id"
    let group_data ← a.require "group_data"
    .ok (c.update_group gid.pyStr group_data)
  else if name == "scim_delete_group" then do
    let gid ← a.require "group_id"
    .ok (c.delete_group gid.pyStr)
  else if name == "scim_add_users_to_group" then do
    let gid ← a.require "group_id"
    let uids ← a.require "user_ids"
    .ok (c.add_members_to_group gid.pyStr uids.pyStrList)
  else if name == "scim_remove_users_from_group" then do
    let gid ← a.require "group_id"
    let uids ← a.require "user_ids"
    .ok (c.remove_members_from_group gid.pyStr uids.pyStrList)
  else
    .error ("Unknown tool: " ++ name)

/-- The raw HTTP response handed back by the transport: status code, the
outcome of attempting to parse the body as JSON, and the raw body text. -/
structure Response where
  status_code : Int
  jsonBody : Option Value
  text : String

/-- The normalised result envelope `{status_code, success, data}`. -/
structure ResultEnvelope where
  status_code : Int
  success : Bool
  data : Value

/-- `SCIMMCPServer._process_response` (mcp_server.py lines 373-385):
`success = status_code < 400`; `data` is the parsed JSON body, falling back
to the raw text when parsing fails.  A total function: it cannot raise. -/
def process_response (r : Response) : ResultEnvelope :=
  { status_code := r.status_code
    success := r.status_code < 400
    data := match r.jsonBody with
            | some v => v
            | none => .str r.text }

/-- What one `handle_call_tool` invocation returns to the MCP framework:
either the normalised result envelope or the `{error, tool, arguments}`
error envelope. -/
inductive ToolOutcome where
  | success (result : ResultEnvelope)
  | errorEnvelope (error : String) (tool : String) (arguments : Args)

/-- The `try`/`except` block of `handle_call_tool` (mcp_server.py lines
271-285): run the tool; an exception becomes the `{error, tool, arguments}`
envelope.  The second component records the network calls made. -/
def call_tool_body (c : SCIMClient) (net : Request → Response) (rnd : Rand)
    (name : String) (arguments : Args) : ToolOutcome × List Request :=
  match execute_tool c rnd name arguments with
  | .error e => (.errorEnvelope e name arguments, [])
  | .ok req => (.success (process_response (net req)), [req])

/-- `handle_call_tool` (mcp_server.py lines 262-285).  The client is
constructed (from the environment) when absent, *outside* the `try` block
(lines 268-269): a construction failure propagates as `Except.error`.  Only
then is the `try` block (`call_tool_body`) entered.  `net` stands for the
transport. -/
def handle_call_tool (env : Env) (client : Option SCIMClient)
    (net : Request → Response) (rnd : Rand) (name : String) (arguments : Args) :
    Except String (SCIMClient × ToolOutcome × List Request) :=
  match client with
  | some c => .ok (c, call_tool_body c net rnd name arguments)
  | none =>
    match SCIMClient.init none none env with
    | .error e => .error e
    | .ok c => .ok (c, call_tool_body c net rnd name arguments)

/-! ## Concrete sample values, used to evaluate the theorems on closed inputs -/

/-- An environment with nothing set. -/
def sampleEnv : Env := ⟨none, none, none⟩

/-- A concrete constructed client. -/
def sampleClient : SCIMClient :=
  { base_url := "https://scim.example.com/v2"
    token := "tok"
    headers := [("Authorization", "Bearer tok"),
                ("Content-Type", "application/scim+json"),
                ("Accept", "application/scim+json")]
    debug := false }

/-- A concrete random source. -/
def sampleRand : Rand :=
  { extDraws := fun _ => ⟨0, by decide⟩
    adjIdx := ⟨0, by decide⟩
    nounIdx := ⟨0, by decide⟩
    pwNumber := 123456
    groupNum := 12345678 }

/-- A transport stub answering 404 with a JSON body. -/
def sampleNet : Request → Response :=
  fun _ => ⟨404, some (.obj [("detail", .str "not found")]), "irrelevant"⟩

/-! ## Helper lemmas -/

theorem lstripSlash_eq_self (s : String) (h : s.data.head? ≠ some '/') :
    lstripSlash s = s := by
  unfold lstripSlash
  cases s with
  | mk data =>
    cases data with
    | nil => rfl
    | cons c l =>
      simp only [List.head?_cons, ne_eq, Option.some.injEq] at h
      simp [List.dropWhile_cons, h]

theorem lstripSlash_slash_append (s : String) :
    lstripSlash ("/" ++ s) = lstripSlash s := by
  unfold lstripSlash
  have h : ("/" ++ s).data = '/' :: s.data := by
    rw [String.data_append]; rfl
  rw [h, List.dropWhile_cons]
  norm_num

theorem rstripSlash_append_slash (s : String) (hs : s.data.getLast? ≠ some '/') :
    rstripSlash (s ++ "/") = s := by
  unfold rstripSlash
  have hdata : (s ++ "/").data = s.data ++ ['/'] := by
    rw [String.data_append]
  rw [hdata]
  have hrev2 : (s.data ++ ['/']).reverse = '/' :: s.data.reverse := by simp
  rw [hrev2]
  have hhead : s.data.reverse.head? ≠ some '/' := by
    rw [List.head?_reverse]; exact hs
  cases s with
  | mk data =>
    simp only [List.dropWhile_cons]
    norm_num
    cases h : data.reverse with
    | nil =>
      have : data = [] := by simpa using congrArg List.reverse h
      simp [this]
    | cons c l =>
      rw [h] at hhead
      simp only [List.head?_cons, ne_eq, Option.some.injEq] at hhead
      rw [List.dropWhile_cons]
      have hc : (c == '/') = false := by simpa using hhead
      rw [hc]
      simp only [Bool.false_eq_true, if_false]
      have : (c :: l).reverse = data := by
        have := congrArg List.reverse h
        simpa using this.symm
      rw [this]

theorem users_endpoint_head (x : String) :
    ("Users?" ++ x).data.head? = some 'U' := by
  rw [String.data_append]; rfl

theorem groups_endpoint_head (x : String) :
    ("Groups?" ++ x).data.head? = some 'G' := by
  rw [String.data_append]; rfl

theorem getUsersEndpoint_none_assoc (si cnt : Int) :
    getUsersEndpoint si cnt none =
      "Users?" ++ ("startIndex=" ++ toString si ++ "&" ++
        ("count=" ++ toString (min cnt 100))) := rfl

theorem getUsersEndpoint_none (si cnt : Int) :
    getUsersEndpoint si cnt none =
      "Users?startIndex=" ++ toString si ++ "&count=" ++ toString (min cnt 100) := by
  rw [getUsersEndpoint_none_assoc]
  simp only [← String.append_assoc]
  rw [String.append_assoc ("Users?" ++ "startIndex=" ++ toString si) "&" "count="]
  rfl

theorem getGroupsEndpoint_none_assoc (si cnt : Int) :
    getGroupsEndpoint si cnt none =
      "Groups?" ++ ("startIndex=" ++ toString si ++ "&" ++
        ("count=" ++ toString (min cnt 100))) := rfl

theorem getGroupsEndpoint_none (si cnt : Int) :
    getGroupsEndpoint si cnt none =
      "Groups?startIndex=" ++ toString si ++ "&count=" ++ toString (min cnt 100) := by
  rw [getGroupsEndpoint_none_assoc]
  simp only [← String.append_assoc]
  rw [String.append_assoc ("Groups?" ++ "startIndex=" ++ toString si) "&" "count="]
  rfl

theorem get_users_url_none (c : SCIMClient) (si cnt : Int) :
    (c.get_users si cnt none).url =
      c.base_url ++ "/" ++ getUsersEndpoint si cnt none := by
  show c.base_url ++ "/" ++ lstripSlash (getUsersEndpoint si cnt none) = _
  rw [lstripSlash_eq_self]
  rw [getUsersEndpoint_none_assoc]
  rw [users_endpoint_head]
  intro h
  exact absurd (Option.some.inj h) (by decide)

theorem get_groups_url_none (c : SCIMClient) (si cnt : Int) :
    (c.get_groups si cnt none).url =
      c.base_url ++ "/" ++ getGroupsEndpoint si cnt none := by
  show c.base_url ++ "/" ++ lstripSlash (getGroupsEndpoint si cnt none) = _
  rw [lstripSlash_eq_self]
  rw [getGroupsEndpoint_none_assoc]
  rw [groups_endpoint_head]
  intro h
  exact absurd (Option.some.inj h) (by decide)

theorem digitChar_isDigit : ∀ k < 10, (Nat.digitChar k).isDigit = true := by decide

theorem toDigitsCore_digits (fuel : Nat) : ∀ (n : Nat) (acc : List Char),
    (∀ ch ∈ acc, ch.isDigit = true) →
    ∀ ch ∈ Nat.toDigitsCore 10 fuel n acc, ch.isDigit = true := by
  induction fuel with
  | zero =>
    intro n acc hacc
    rw [Nat.toDigitsCore]
    exact hacc
  | succ fuel ih =>
    intro n acc hacc
    rw [Nat.toDigitsCore.eq_2]
    have hd : (Nat.digitChar (n % 10)).isDigit = true :=
      digitChar_isDigit _ (Nat.mod_lt _ (by omega))
    have hcons : ∀ ch ∈ Nat.digitChar (n % 10) :: acc, ch.isDigit = true := by
      intro ch hch
      rcases List.mem_cons.mp hch with rfl | hch
      · exact hd
      · exact hacc ch hch
    by_cases h10 : n / 10 = 0
    · simp only [h10, if_true]
      exact hcons
    · simp only [h10, if_false]
      exact ih (n / 10) _ hcons

theorem toDigitsCore_length_le (fuel : Nat) : ∀ (n : Nat) (acc : List Char),
    acc.length ≤ (Nat.toDigitsCore 10 fuel n acc).length := by
  induction fuel with
  | zero => intro n acc; rw [Nat.toDigitsCore]
  | succ fuel ih =>
    intro n acc
    rw [Nat.toDigitsCore.eq_2]
    by_cases h10 : n / 10 = 0
    · simp only [h10, if_true, List.length_cons]
      omega
    · simp only [h10, if_false]
      have := ih (n / 10) (Nat.digitChar (n % 10) :: acc)
      simp only [List.length_cons] at this
      omega

theorem repr_data_digits (n : Nat) : ∀ ch ∈ (Nat.repr n).data, ch.isDigit = true := by
  have h : (Nat.repr n).data = Nat.toDigitsCore 10 (n + 1) n [] := rfl
  rw [h]
  exact toDigitsCore_digits (n + 1) n [] (by intro ch hch; cases hch)

theorem repr_data_ne_nil (n : Nat) : (Nat.repr n).data ≠ [] := by
  have h : (Nat.repr n).data = Nat.toDigitsCore 10 (n + 1) n [] := rfl
  rw [h, Nat.toDigitsCore.eq_2]
  by_cases h10 : n / 10 = 0
  · simp [h10]
  · simp only [h10, if_false]
    have := toDigitsCore_length_le n (n / 10) (Nat.digitChar (n % 10) :: [])
    intro hnil
    rw [hnil] at this
    simp at this

theorem adjectives_fact :
    ∀ s ∈ adjectives, 3 ≤ s.length ∧ ∃ ch ∈ s.data, ch.isAlpha = true := by decide

theorem nouns_fact : ∀ s ∈ nouns, 3 ≤ s.length := by decide

theorem alphanum_fact :
    ∀ ch ∈ alphanum, (ch.isUpper || ch.isLower || ch.isDigit) = true := by decide

/-! ## Claim theorems -/

/-- C4: for every group id and user-id list, `remove_members_from_group`
issues a PATCH whose body carries the PatchOp schemas list and exactly one
`Operations` entry per user id, in input order, each
`{op: "remove", path: "members[value eq \"<id>\"]"}` with no `value` field —
never one batched operation. -/
theorem remove_members_per_id_operations (c : SCIMClient) (group_id : String)
    (user_ids : List String) :
    (c.remove_members_from_group group_id user_ids).method = "PATCH" ∧
    (c.remove_members_from_group group_id user_ids).payload =
      some (.obj
        [("schemas", .arr [.str "urn:ietf:params:scim:api:messages:2.0:PatchOp"]),
         ("Operations", .arr (user_ids.map (fun uid =>
            .obj [("op", .str "remove"),
                  ("path", .str ("members[value eq \"" ++ uid ++ "\"]"))])))]) ∧
    (user_ids.map removeOp).length = user_ids.length :=
  ⟨rfl, rfl, List.length_map _ _⟩

/-- C6: construction with base URL or token still absent after the
environment fallback fails with a configuration error at construction time;
with both present it never raises. -/
theorem init_configuration_error (base_url token : Option String) (env : Env) :
    (strTruthy (pyOr base_url env.scim_base_url) = false ∨
     strTruthy (pyOr token env.scim_token) = false →
      ∃ msg, SCIMClient.init base_url token env = .error msg) ∧
    (strTruthy (pyOr base_url env.scim_base_url) = true ∧
     strTruthy (pyOr token env.scim_token) = true →
      ∃ c, SCIMClient.init base_url token env = .ok c) := by
  constructor
  · intro h
    rcases h with h | h
    · exact ⟨"SCIM base URL must be provided via parameter or SCIM_BASE_URL environment variable",
        by simp [SCIMClient.init, h]⟩
    · by_cases hb : strTruthy (pyOr base_url env.scim_base_url)
      · exact ⟨"SCIM token must be provided via parameter or SCIM_TOKEN environment variable",
          by simp [SCIMClient.init, h, hb]⟩
      · exact ⟨"SCIM base URL must be provided via parameter or SCIM_BASE_URL environment variable",
          by simp [SCIMClient.init, Bool.eq_false_iff.mpr hb]⟩
  · rintro ⟨hb, ht⟩
    refine ⟨{ base_url := rstripSlash ((pyOr base_url env.scim_base_url).getD "")
              token := (pyOr token env.scim_token).getD ""
              headers := [("Authorization", "Bearer " ++ (pyOr token env.scim_token).getD ""),
                          ("Content-Type", "application/scim+json"),
                          ("Accept", "application/scim+json")]
              debug := debugTruthy env.debug }, ?_⟩
    simp [SCIMClient.init, hb, ht]

/-- C6 witness: a concrete missing-base-URL failure and a concrete
successful construction. -/
theorem init_configuration_error_witness :
    (∃ msg, SCIMClient.init none (some "tok") sampleEnv = .error msg) ∧
    (∃ c, SCIMClient.init (some "https://x") (some "tok") sampleEnv = .ok c) :=
  ⟨(init_configuration_error none (some "tok") sampleEnv).1 (Or.inl (by decide)),
   (init_configuration_error (some "https://x") (some "tok") sampleEnv).2
     ⟨by decide, by decide⟩⟩

/-- C5: `get_users`/`get_groups` transmit `count = min(requested, 100)` —
exactly `100` whenever more than 100 is requested — and with no filter
expression the query string carries no `filter` parameter at all. -/
theorem list_count_clamped_and_filter_omitted (c : SCIMClient) (si cnt : Int) :
    (c.get_users si cnt none).url =
      c.base_url ++ "/" ++
        ("Users?startIndex=" ++ toString si ++ "&count=" ++ toString (min cnt 100)) ∧
    (c.get_groups si cnt none).url =
      c.base_url ++ "/" ++
        ("Groups?startIndex=" ++ toString si ++ "&count=" ++ toString (min cnt 100)) ∧
    (100 < cnt →
      (c.get_users si cnt none).url =
        c.base_url ++ "/" ++ ("Users?startIndex=" ++ toString si ++ "&count=100") ∧
      (c.get_groups si cnt none).url =
        c.base_url ++ "/" ++ ("Groups?startIndex=" ++ toString si ++ "&count=100")) ∧
    (∀ p ∈ getUsersParams si cnt none, p.1 ≠ "filter") ∧
    (∀ p ∈ getGroupsParams si cnt none, p.1 ≠ "filter") := by
  have hu : (c.get_users si cnt none).url =
      c.base_url ++ "/" ++
        ("Users?startIndex=" ++ toString si ++ "&count=" ++ toString (min cnt 100)) := by
    rw [get_users_url_none, getUsersEndpoint_none]
  have hg : (c.get_groups si cnt none).url =
      c.base_url ++ "/" ++
        ("Groups?startIndex=" ++ toString si ++ "&count=" ++ toString (min cnt 100)) := by
    rw [get_groups_url_none, getGroupsEndpoint_none]
  refine ⟨hu, hg, ?_, ?_, ?_⟩
  · intro h100
    have hmin : min cnt 100 = 100 := min_eq_right h100.le
    constructor
    · rw [hu, hmin]
      rw [String.append_assoc ("Users?startIndex=" ++ toString si) "&count="
            (toString (100 : Int))]
      rfl
    · rw [hg, hmin]
      rw [String.append_assoc ("Groups?startIndex=" ++ toString si) "&count="
            (toString (100 : Int))]
      rfl
  · intro p hp
    simp only [getUsersParams, strTruthy, Bool.false_eq_true, if_false,
      List.append_nil, List.mem_cons, List.not_mem_nil, or_false] at hp
    rcases hp with rfl | rfl <;> simp
  · intro p hp
    simp only [getGroupsParams, strTruthy, Bool.false_eq_true, if_false,
      List.append_nil, List.mem_cons, List.not_mem_nil, or_false] at hp
    rcases hp with rfl | rfl <;> simp

/-- C5 witness: requesting 250 transmits `count=100` for both Users and
Groups. -/
theorem list_count_clamped_and_filter_omitted_witness :
    (sampleClient.get_users 1 250 none).url =
      sampleClient.base_url ++ "/" ++
        ("Users?startIndex=" ++ toString (1 : Int) ++ "&count=100") ∧
    (sampleClient.get_groups 1 250 none).url =
      sampleClient.base_url ++ "/" ++
        ("Groups?startIndex=" ++ toString (1 : Int) ++ "&count=100") :=
  (list_count_clamped_and_filter_omitted sampleClient 1 250).2.2.1 (by norm_num)

/-- C10: at the client interface the empty string behaves like an absent
argument: `create_user` with empty `externalId`/`password` and
`create_group` with empty `externalId` substitute the generated defaults,
and `get_users`/`get_groups` with an empty filter expression omit the
`filter` parameter entirely. -/
theorem empty_string_like_absent (c : SCIMClient)
    (email firstName lastName displayName : String)
    (draws : Fin 12 → Fin alphanum.length) (ai : Fin adjectives.length)
    (ni : Fin nouns.length) (n gnum : Nat) (si cnt : Int) :
    (c.create_user email firstName lastName (some "") (some "")
        draws ai ni n).payloadField "externalId" =
      some (.str (generate_external_id draws)) ∧
    (c.create_user email firstName lastName (some "") (some "")
        draws ai ni n).payloadField "password" =
      some (.str (generate_easy_password ai ni n)) ∧
    (c.create_group displayName (some "") gnum).payloadField "externalId" =
      some (.str (Nat.repr gnum)) ∧
    c.get_users si cnt (some "") = c.get_users si cnt none ∧
    c.get_groups si cnt (some "") = c.get_groups si cnt none ∧
    (∀ p ∈ getUsersParams si cnt (some ""), p.1 ≠ "filter") ∧
    (∀ p ∈ getGroupsParams si cnt (some ""), p.1 ≠ "filter") := by
  refine ⟨rfl, rfl, rfl, rfl, rfl, ?_, ?_⟩
  · intro p hp
    simp only [getUsersParams, strTruthy, beq_self_eq_true, Bool.not_true,
      Bool.false_eq_true, if_false, List.append_nil, List.mem_cons,
      List.not_mem_nil, or_false] at hp
    rcases hp with rfl | rfl <;> simp
  · intro p hp
    simp only [getGroupsParams, strTruthy, beq_self_eq_true, Bool.not_true,
      Bool.false_eq_true, if_false, List.append_nil, List.mem_cons,
      List.not_mem_nil, or_false] at hp
    rcases hp with rfl | rfl <;> simp

/-- C1: for every accepted `(base_url, token)`, construction strips exactly
the one trailing slash of the base URL and no other character, sets the
`Authorization` header to `"Bearer " + token`, and every request URL puts
exactly one slash between the normalised base URL and the endpoint path,
whether or not the endpoint carries a leading slash. -/
theorem client_normalization_spec (s t e : String) (env : Env)
    (hs : s.data.getLast? ≠ some '/') (ht : t ≠ "")
    (he : e.data.head? ≠ some '/') :
    ∃ c : SCIMClient,
      SCIMClient.init (some (s ++ "/")) (some t) env = .ok c ∧
      c.base_url = s ∧
      c.headers.lookup "Authorization" = some ("Bearer " ++ t) ∧
      c.makeRequestUrl e = s ++ "/" ++ e ∧
      c.makeRequestUrl ("/" ++ e) = s ++ "/" ++ e := by
  have hne : (s ++ "/") ≠ "" := by
    intro hc
    have hd := congrArg String.data hc
    rw [String.data_append] at hd
    simp at hd
  have hb : strTruthy (some (s ++ "/")) = true := by simp [strTruthy, hne]
  have htt : strTruthy (some t) = true := by simp [strTruthy, ht]
  refine ⟨{ base_url := s
            token := t
            headers := [("Authorization", "Bearer " ++ t),
                        ("Content-Type", "application/scim+json"),
                        ("Accept", "application/scim+json")]
            debug := debugTruthy env.debug }, ?_, rfl, rfl, ?_, ?_⟩
  · simp [SCIMClient.init, pyOr, hb, htt, rstripSlash_append_slash s hs]
  · show s ++ "/" ++ lstripSlash e = s ++ "/" ++ e
    rw [lstripSlash_eq_self e he]
  · show s ++ "/" ++ lstripSlash ("/" ++ e) = s ++ "/" ++ e
    rw [lstripSlash_slash_append, lstripSlash_eq_self e he]

/-- C1 witness: a concrete base URL with one trailing slash, token and
endpoint. -/
theorem client_normalization_spec_witness :
    ∃ c : SCIMClient,
      SCIMClient.init (some ("https://scim.example.com" ++ "/")) (some "tok")
          sampleEnv = .ok c ∧
      c.base_url = "https://scim.example.com" ∧
      c.headers.lookup "Authorization" = some ("Bearer " ++ "tok") ∧
      c.makeRequestUrl "Users" = "https://scim.example.com" ++ "/" ++ "Users" ∧
      c.makeRequestUrl ("/" ++ "Users") = "https://scim.example.com" ++ "/" ++ "Users" :=
  client_normalization_spec "https://scim.example.com" "tok" "Users" sampleEnv
    (by decide) (by decide) (by decide)

/-- C2: dispatching an unregistered operation name returns the
`{error, tool, arguments}` envelope with no network call, and dispatching
`scim_create_user` without `email` returns an envelope naming the missing
field, again with no network call. -/
theorem dispatcher_validation_no_network (c : SCIMClient) (env : Env)
    (net : Request → Response) (rnd : Rand) (name : String) (a : Args) :
    (name ∉ toolNames →
      handle_call_tool env (some c) net rnd name a =
        .ok (c, .errorEnvelope ("Unknown tool: " ++ name) name a, [])) ∧
    (a.get? "email" = none →
      handle_call_tool env (some c) net rnd "scim_create_user" a =
        .ok (c, .errorEnvelope (keyErrorMsg "email") "scim_create_user" a, [])) := by
  constructor
  · intro hname
    simp only [toolNames, List.mem_cons, List.not_mem_nil, or_false, not_or] at hname
    obtain ⟨h1, h2, h3, h4, h5, h6, h7, h8, h9, h10, h11, h12⟩ := hname
    simp [handle_call_tool, call_tool_body, execute_tool,
      h1, h2, h3, h4, h5, h6, h7, h8, h9, h10, h11, h12]
  · intro h
    simp [handle_call_tool, call_tool_body, execute_tool, Args.require, h,
      Except.bind, Bind.bind]

/-- C2 witness: the unknown tool `scim_bogus`, and `scim_create_user` with
empty arguments. -/
theorem dispatcher_validation_no_network_witness :
    handle_call_tool sampleEnv (some sampleClient) sampleNet sampleRand
        "scim_bogus" [] =
      .ok (sampleClient,
           .errorEnvelope ("Unknown tool: " ++ "scim_bogus") "scim_bogus" [], []) ∧
    handle_call_tool sampleEnv (some sampleClient) sampleNet sampleRand
        "scim_create_user" [] =
      .ok (sampleClient,
           .errorEnvelope (keyErrorMsg "email") "scim_create_user" [], []) :=
  ⟨(dispatcher_validation_no_network sampleClient sampleEnv sampleNet sampleRand
      "scim_bogus" []).1 (by decide),
   (dispatcher_validation_no_network sampleClient sampleEnv sampleNet sampleRand
      "scim_bogus" []).2 rfl⟩

/-- C3: response normalisation yields `{status_code, success, data}` with
`success` true exactly when `status_code < 400` (so 404 gives
`success = false`, surfaced as an envelope by the dispatcher, never an
exception), `data` the parsed JSON body or the raw text when parsing fails;
it is a total function, so it never raises. -/
theorem process_response_never_raises (r : Response) :
    ((process_response r).success = true ↔ r.status_code < 400) ∧
    (process_response r).status_code = r.status_code ∧
    (∀ v, r.jsonBody = some v → (process_response r).data = v) ∧
    (r.jsonBody = none → (process_response r).data = .str r.text) ∧
    (r.status_code = 404 → (process_response r).success = false) ∧
    (∀ (env : Env) (c : SCIMClient) (net : Request → Response) (rnd : Rand)
        (name : String) (a : Args) (req : Request),
      execute_tool c rnd name a = .ok req →
      handle_call_tool env (some c) net rnd name a =
        .ok (c, .success (process_response (net req)), [req])) := by
  refine ⟨?_, rfl, ?_, ?_, ?_, ?_⟩
  · simp [process_response]
  · intro v hv
    simp [process_response, hv]
  · intro hv
    simp [process_response, hv]
  · intro h
    simp [process_response, h]
  · intro env c net rnd name a req h
    simp [handle_call_tool, call_tool_body, h]

/-- C3 witness: a 404 response with a JSON body is normalised, not raised,
and the dispatcher surfaces it as a success-false envelope. -/
theorem process_response_never_raises_witness :
    (process_response ⟨404, some (.obj [("detail", Value.str "not found")]),
        "irrelevant"⟩).data = .obj [("detail", Value.str "not found")] ∧
    (process_response ⟨404, some (.obj [("detail", Value.str "not found")]),
        "irrelevant"⟩).success = false ∧
    handle_call_tool sampleEnv (some sampleClient) sampleNet sampleRand
        "scim_get_user" [("user_id", Value.str "u1")] =
      .ok (sampleClient,
           .success (process_response (sampleNet (sampleClient.get_user "u1"))),
           [sampleClient.get_user "u1"]) :=
  ⟨(process_response_never_raises _).2.2.1 _ rfl,
   (process_response_never_raises _).2.2.2.2.1 rfl,
   (process_response_never_raises ⟨404, some (.obj [("detail", Value.str "not found")]),
      "irrelevant"⟩).2.2.2.2.2 sampleEnv sampleClient sampleNet
     sampleRand "scim_get_user" [("user_id", Value.str "u1")]
     (sampleClient.get_user "u1") rfl⟩

/-- C9: when no client exists yet, `handle_call_tool` constructs it before
entering the `try` block, so a configuration error from construction
propagates uncaught (`Except.error`), while every exception raised after
construction is converted to the `{error, tool, arguments}` envelope. -/
theorem client_constructed_before_try (env : Env) (net : Request → Response)
    (rnd : Rand) (name : String) (a : Args) :
    (∀ msg, SCIMClient.init none none env = .error msg →
      handle_call_tool env none net rnd name a = .error msg) ∧
    (∀ (c : SCIMClient) (e : String), execute_tool c rnd name a = .error e →
      handle_call_tool env (some c) net rnd name a =
        .ok (c, .errorEnvelope e name a, [])) := by
  constructor
  · intro msg h
    simp [handle_call_tool, h]
  · intro c e h
    simp [handle_call_tool, call_tool_body, h]

/-- C9 witness: with an empty environment the construction failure escapes
`handle_call_tool` uncaught; after construction an unknown tool becomes an
envelope. -/
theorem client_constructed_before_try_witness :
    handle_call_tool sampleEnv none sampleNet sampleRand "scim_list_users" [] =
      .error "SCIM base URL must be provided via parameter or SCIM_BASE_URL environment variable" ∧
    handle_call_tool sampleEnv (some sampleClient) sampleNet sampleRand
        "nonexistent_tool" [] =
      .ok (sampleClient,
           .errorEnvelope ("Unknown tool: " ++ "nonexistent_tool")
             "nonexistent_tool" [], []) :=
  ⟨(client_constructed_before_try sampleEnv sampleNet sampleRand
      "scim_list_users" []).1 _ rfl,
   (client_constructed_before_try sampleEnv sampleNet sampleRand
      "nonexistent_tool" []).2 sampleClient _ rfl⟩

/-- C7: `create_user` without a password POSTs a generated password that
exceeds 6 characters, ends in `'!'`, and contains at least one letter and
one digit, for every draw the random source can make. -/
theorem create_user_generated_password_contract (c : SCIMClient)
    (email firstName lastName : String) (externalId : Option String)
    (draws : Fin 12 → Fin alphanum.length) (ai : Fin adjectives.length)
    (ni : Fin nouns.length) (n : Nat) (h1 : 100000 ≤ n) (h2 : n ≤ 999999) :
    (c.create_user email firstName lastName externalId none
        draws ai ni n).payloadField "password" =
      some (.str (generate_easy_password ai ni n)) ∧
    6 < (generate_easy_password ai ni n).length ∧
    (generate_easy_password ai ni n).data.getLast? = some '!' ∧
    (∃ ch ∈ (generate_easy_password ai ni n).data, ch.isAlpha = true) ∧
    (∃ ch ∈ (generate_easy_password ai ni n).data, ch.isDigit = true) := by
  have hdata : (generate_easy_password ai ni n).data =
      ((adjectives.get ai).data ++ (nouns.get ni).data ++ (Nat.repr n).data)
        ++ ['!'] := by
    simp only [generate_easy_password, String.data_append]
  have hadj := adjectives_fact _ (List.get_mem adjectives ai.1 ai.2)
  have hnoun := nouns_fact _ (List.get_mem nouns ni.1 ni.2)
  refine ⟨rfl, ?_, ?_, ?_, ?_⟩
  · have hlen : (generate_easy_password ai ni n).length =
        (generate_easy_password ai ni n).data.length := rfl
    rw [hlen, hdata]
    simp only [List.length_append, List.length_cons, List.length_nil]
    have h3 : 3 ≤ (adjectives.get ai).data.length := hadj.1
    have h4 : 3 ≤ (nouns.get ni).data.length := hnoun
    omega
  · rw [hdata]
    exact List.getLast?_concat _
  · obtain ⟨ch, hch, hal⟩ := hadj.2
    refine ⟨ch, ?_, hal⟩
    rw [hdata]
    exact List.mem_append_left _ (List.mem_append_left _ (List.mem_append_left _ hch))
  · obtain ⟨ch, hch⟩ := List.exists_mem_of_ne_nil _ (repr_data_ne_nil n)
    refine ⟨ch, ?_, repr_data_digits n ch hch⟩
    rw [hdata]
    exact List.mem_append_left _ (List.mem_append_right _ hch)

/-- C7 witness: a concrete draw of adjective, noun and 6-digit number. -/
theorem create_user_generated_password_contract_witness :
    (sampleClient.create_user "jane@example.com" "Jane" "Doe" none none
        sampleRand.extDraws sampleRand.adjIdx sampleRand.nounIdx
        123456).payloadField "password" =
      some (.str (generate_easy_password sampleRand.adjIdx sampleRand.nounIdx 123456)) ∧
    6 < (generate_easy_password sampleRand.adjIdx sampleRand.nounIdx 123456).length ∧
    (generate_easy_password sampleRand.adjIdx sampleRand.nounIdx
        123456).data.getLast? = some '!' ∧
    (∃ ch ∈ (generate_easy_password sampleRand.adjIdx sampleRand.nounIdx
        123456).data, ch.isAlpha = true) ∧
    (∃ ch ∈ (generate_easy_password sampleRand.adjIdx sampleRand.nounIdx
        123456).data, ch.isDigit = true) :=
  create_user_generated_password_contract sampleClient "jane@example.com" "Jane"
    "Doe" none sampleRand.extDraws sampleRand.adjIdx sampleRand.nounIdx 123456
    (by norm_num) (by norm_num)

/-- C8: `create_user` without an external ID POSTs a generated external ID
of exactly 12 characters, each an ASCII upper-case letter, lower-case
letter, or decimal digit, for every draw the random source can make. -/
theorem create_user_generated_external_id_contract (c : SCIMClient)
    (email firstName lastName : String) (password : Option String)
    (draws : Fin 12 → Fin alphanum.length) (ai : Fin adjectives.length)
    (ni : Fin nouns.length) (n : Nat) :
    (c.create_user email firstName lastName none password
        draws ai ni n).payloadField "externalId" =
      some (.str (generate_external_id draws)) ∧
    (generate_external_id draws).length = 12 ∧
    ∀ ch ∈ (generate_external_id draws).data,
      (ch.isUpper || ch.isLower || ch.isDigit) = true := by
  refine ⟨rfl, ?_, ?_⟩
  · show ((List.finRange 12).map (fun i => alphanum.get (draws i))).length = 12
    rw [List.length_map, List.length_finRange]
  · intro ch hch
    have hm : ch ∈ (List.finRange 12).map (fun i => alphanum.get (draws i)) := hch
    obtain ⟨i, _, rfl⟩ := List.mem_map.mp hm
    exact alphanum_fact _ (List.get_mem _ _ _)

end Scimcp
